import Mathlib

/-!
Verification of the per-frame animation core of the polaroid christmas tree
application.  The definitions below are shallow embeddings of the TypeScript
source: `three.js` math helpers (`lerp`, `clamp`, `smoothstep`,
`randFloatSpread`), the spatial distribution library in `src/utils.ts`
(`getTreePoint`, `getSpiralPoint`), the per-frame update bodies of the
Foliage, Ornaments, Star, ChaoticSwarm and PhotoFrame components, and the
click / double-click / timer state machine of the PhotoFrame.  Randomness is
modelled by passing the sampled values (`Math.random()` outputs, angles,
noise) as explicit real parameters.
-/

noncomputable section

namespace XmasTree

/-- Three-component vector, the embedding of `THREE.Vector3`. -/
structure Vec3 where
  x : ℝ
  y : ℝ
  z : ℝ

/-- Embedding of `THREE.MathUtils.lerp(x, y, t) = (1 - t) * x + t * y`.
Note that `t` is NOT clamped by three.js. -/
def lerp (x y t : ℝ) : ℝ := (1 - t) * x + t * y

/-- Embedding of `THREE.MathUtils.clamp(value, min, max) =
Math.max(min, Math.min(max, value))`. -/
def clampVal (v lo hi : ℝ) : ℝ := max lo (min hi v)

/-- Embedding of `THREE.MathUtils.smoothstep(x, min, max)`: clamp the
normalised input to [0,1] and apply the cubic `t*t*(3-2t)`. -/
def smoothstep (x lo hi : ℝ) : ℝ :=
  if x ≤ lo then 0
  else if hi ≤ x then 1
  else
    let t := (x - lo) / (hi - lo)
    t * t * (3 - 2 * t)

/-- Embedding of `Math.sign`. -/
def msign (x : ℝ) : ℝ := if 0 < x then 1 else if x < 0 then -1 else 0

/-- Componentwise `THREE.Vector3.lerp(v, alpha)`: each coordinate moves by
`(target - current) * alpha`. -/
def vlerp (a b : Vec3) (t : ℝ) : Vec3 := ⟨lerp a.x b.x t, lerp a.y b.y t, lerp a.z b.z t⟩

/-! ## Spatial distribution library (`src/utils.ts`) -/

/-- Embedding of `getTreePoint(height, baseRadius, yRatio)` from
`src/utils.ts`.  The two random draws of the source —
`theta = Math.random() * 2π` and `rNoise = MathUtils.randFloatSpread(0.5)` —
are passed in as explicit parameters `theta` and `noise`.  The body is a
literal transcription: `y = yRatio*height`, `r = baseRadius*(1-yRatio)`,
`finalR = max(0, r + rNoise)`, result
`(finalR*cos θ, y - height/2, finalR*sin θ)`. -/
def getTreePoint (height baseRadius yRatio theta noise : ℝ) : Vec3 :=
  let y := yRatio * height
  let r := baseRadius * (1 - yRatio)
  let finalR := max 0 (r + noise)
  ⟨finalR * Real.cos theta, y - height / 2, finalR * Real.sin theta⟩

/-- The polar angle used by `getSpiralPoint` for a given index:
`theta = yRatio * π * 2 * loops` with `yRatio = index/total` and
`loops = 4`. -/
def spiralTheta (index total : ℕ) : ℝ :=
  ((index : ℝ) / (total : ℝ)) * Real.pi * 2 * 4

/-- Embedding of `getSpiralPoint(index, total, height, radiusBase)` from
`src/utils.ts`.  Returns the position and the `rotationY` facing angle.
Literal transcription: `yRatio = index/total`,
`y = yRatio*height - height/2`, `r = radiusBase*(1-yRatio) + 1.5`,
`theta = yRatio * 2π * 4`, position `(r cos θ, y, r sin θ)`,
`rotationY = -theta`. -/
def getSpiralPoint (index total : ℕ) (height radiusBase : ℝ) : Vec3 × ℝ :=
  let yRatio := (index : ℝ) / (total : ℝ)
  let y := yRatio * height - height / 2
  let r := radiusBase * (1 - yRatio) + 1.5
  let theta := spiralTheta index total
  (⟨r * Real.cos theta, y, r * Real.sin theta⟩, -theta)

end XmasTree

namespace XmasTree

/-- Helper: the `y` coordinate produced by `getSpiralPoint` is
`(i/N)*h - h/2`. -/
theorem getSpiralPoint_y (index total : ℕ) (height radiusBase : ℝ) :
    (getSpiralPoint index total height radiusBase).1.y =
      ((index : ℝ) / (total : ℝ)) * height - height / 2 := rfl

end XmasTree

namespace XmasTree

/-- C1 counterexample: the claim asserts `y` strictly DECREASES with the
index, but already for `total = 2`, `height = 12`, `radiusBase = 5.5` the
code yields `y(0) = -6 < y(1) = 0`: the `y` coordinate increases. -/
theorem C1_counterexample :
    (getSpiralPoint 0 2 12 5.5).1.y < (getSpiralPoint 1 2 12 5.5).1.y := by
  rw [getSpiralPoint_y, getSpiralPoint_y]
  norm_num

/-- C1 (amended): for `total ≥ 1` and indices `i < j < total`, the spiral
placement returns points whose `y` coordinate strictly INCREASES with the
index (bottom-to-top ordering), and for every index the returned facing
angle equals exactly the negation of the polar angle `theta(i)` used for
that index. -/
theorem C1_spiral_y_increasing_and_facing (i j total : ℕ) (height radiusBase : ℝ)
    (htot : 0 < total) (hij : i < j) (_hj : j < total) (hh : 0 < height) :
    (getSpiralPoint i total height radiusBase).1.y <
      (getSpiralPoint j total height radiusBase).1.y ∧
    (getSpiralPoint i total height radiusBase).2 = -(spiralTheta i total) := by
  constructor
  · rw [getSpiralPoint_y, getSpiralPoint_y]
    have hN : (0 : ℝ) < (total : ℝ) := by exact_mod_cast htot
    have hlt : (i : ℝ) / (total : ℝ) < (j : ℝ) / (total : ℝ) := by
      rw [div_lt_div_iff_of_pos_right hN]
      exact_mod_cast hij
    have := mul_lt_mul_of_pos_right hlt hh
    linarith
  · rfl

/-- C1 witness: the amended theorem instantiated at
`i = 0, j = 1, total = 2, height = 12, radiusBase = 5.5`. -/
theorem C1_spiral_witness :
    (getSpiralPoint 0 2 12 5.5).1.y < (getSpiralPoint 1 2 12 5.5).1.y ∧
    (getSpiralPoint 0 2 12 5.5).2 = -(spiralTheta 0 2) :=
  C1_spiral_y_increasing_and_facing 0 1 2 12 5.5 (by norm_num) (by norm_num)
    (by norm_num) (by norm_num)

end XmasTree

namespace XmasTree

/-- C4: for `heightRatio ∈ [0,1]`, nonnegative `height` and `baseRadius`,
and a jitter draw of magnitude at most `0.25` (the source draws
`randFloatSpread(0.5) ∈ (-0.25, 0.25]`), the cone placement returns a point
whose `y` lies in `[-height/2, height/2]`, whose horizontal radius equals
the clamped jittered radius `max 0 (baseRadius*(1-ratio) + noise)`, which is
never negative and differs from the unjittered radius
`baseRadius*(1-ratio)` by at most `0.25`. -/
theorem C4_cone_bounds (height baseRadius yRatio theta noise : ℝ)
    (hh : 0 ≤ height) (hR : 0 ≤ baseRadius) (h0 : 0 ≤ yRatio) (h1 : yRatio ≤ 1)
    (hn : |noise| ≤ 0.25) :
    (-(height / 2) ≤ (getTreePoint height baseRadius yRatio theta noise).y ∧
      (getTreePoint height baseRadius yRatio theta noise).y ≤ height / 2) ∧
    Real.sqrt ((getTreePoint height baseRadius yRatio theta noise).x ^ 2 +
        (getTreePoint height baseRadius yRatio theta noise).z ^ 2) =
      max 0 (baseRadius * (1 - yRatio) + noise) ∧
    0 ≤ max 0 (baseRadius * (1 - yRatio) + noise) ∧
    |max 0 (baseRadius * (1 - yRatio) + noise) - baseRadius * (1 - yRatio)| ≤ 0.25 := by
  obtain ⟨hnlo, hnhi⟩ := abs_le.mp hn
  set r := baseRadius * (1 - yRatio) with hr
  have hrnn : 0 ≤ r := mul_nonneg hR (by linarith)
  set fR := max 0 (r + noise) with hfR
  have hfRnn : 0 ≤ fR := le_max_left 0 _
  refine ⟨⟨?_, ?_⟩, ?_, hfRnn, ?_⟩
  · show -(height / 2) ≤ yRatio * height - height / 2
    nlinarith [mul_nonneg h0 hh]
  · show yRatio * height - height / 2 ≤ height / 2
    nlinarith [mul_le_mul_of_nonneg_right h1 hh]
  · show Real.sqrt ((fR * Real.cos theta) ^ 2 + (fR * Real.sin theta) ^ 2) = fR
    have hsq : (fR * Real.cos theta) ^ 2 + (fR * Real.sin theta) ^ 2 = fR ^ 2 := by
      have := Real.sin_sq_add_cos_sq theta
      ring_nf
      nlinarith [this]
    rw [hsq, Real.sqrt_sq hfRnn]
  · rcases le_or_lt 0 (r + noise) with hpos | hneg
    · have : fR = r + noise := max_eq_right hpos
      rw [this]
      rw [abs_le]
      constructor <;> linarith
    · have : fR = 0 := max_eq_left (le_of_lt hneg)
      rw [this]
      rw [abs_le]
      constructor <;> linarith

/-- C4 witness: the theorem instantiated at `height = 14`,
`baseRadius = 5`, `yRatio = 1/2`, `theta = 0`, `noise = 0`. -/
theorem C4_cone_bounds_witness :
    (-(14 / 2 : ℝ) ≤ (getTreePoint 14 5 (1/2) 0 0).y ∧
      (getTreePoint 14 5 (1/2) 0 0).y ≤ 14 / 2) ∧
    Real.sqrt ((getTreePoint 14 5 (1/2) 0 0).x ^ 2 +
        (getTreePoint 14 5 (1/2) 0 0).z ^ 2) = max 0 (5 * (1 - 1/2) + 0) ∧
    (0 : ℝ) ≤ max 0 (5 * (1 - 1/2) + 0) ∧
    |max 0 (5 * (1 - 1/2) + 0) - 5 * (1 - 1/2 : ℝ)| ≤ 0.25 :=
  C4_cone_bounds 14 5 (1/2) 0 0 (by norm_num) (by norm_num) (by norm_num)
    (by norm_num) (by norm_num)

end XmasTree

namespace XmasTree

/-! ## Exponentially damped scalars

Three code sites apply `THREE.MathUtils.lerp(value, target, factor)` once per
frame with a rate-times-delta factor:
the Foliage progress (`lerp(progress, target, delta * 2.5)`,
`src/components/Foliage.tsx`), the PhotoFrame smoothed resting position
(`currentRestingPos.lerp(dest, delta * 2.5)`, componentwise the same
update), and the PhotoFrame flip progress
(`lerp(flipProgress, targetFlip, delta * 2.0)`).  `lerpIter` iterates the
common one-step update with a fixed factor `α` and target `T`. -/

/-- Iterated damped-lerp update: `n` ticks of `v ← lerp v T α`. -/
def lerpIter (α T v : ℝ) : ℕ → ℝ
  | 0 => v
  | n + 1 => lerp (lerpIter α T v n) T α

/-- One Foliage `useFrame` progress update
(`src/components/Foliage.tsx`): `lerp(progress, formed ? 1 : 0, delta*2.5)`. -/
def foliageProgressStep (formed : Bool) (delta p : ℝ) : ℝ :=
  lerp p (if formed then 1 else 0) (delta * 2.5)

/-- One PhotoFrame flip-progress update:
`lerp(flipProgress, isFlipped ? 1 : 0, delta*2.0)`. -/
def flipProgressStep (flipped : Bool) (delta p : ℝ) : ℝ :=
  lerp p (if flipped then 1 else 0) (delta * 2.0)

/-- One PhotoFrame smoothed-resting-position update:
`currentRestingPos.lerp(destRestingPos, delta * 2.5)` (componentwise
damped lerp). -/
def restingPosStep (delta : ℝ) (cur dest : Vec3) : Vec3 :=
  vlerp cur dest (delta * 2.5)

/-- Closed form of the iterated damped lerp: the error to the target
shrinks geometrically, `lerpIter α T v n - T = (1-α)^n * (v - T)`. -/
theorem lerpIter_sub_target (α T v : ℝ) (n : ℕ) :
    lerpIter α T v n - T = (1 - α) ^ n * (v - T) := by
  induction n with
  | zero => simp [lerpIter]
  | succ n ih =>
    have : lerpIter α T v (n + 1) - T = (1 - α) * (lerpIter α T v n - T) := by
      simp only [lerpIter, lerp]
      ring
    rw [this, ih, pow_succ]
    ring

/-- C2 counterexample: the claim allows ANY constant positive `dt`, but the
three.js `lerp` does not clamp its factor.  With `dt = 1` the Foliage
progress update from `0` toward target `1` yields `2.5`, overshooting the
target. -/
theorem C2_counterexample :
    foliageProgressStep true 1 0 = 2.5 ∧ ¬ foliageProgressStep true 1 0 ≤ 1 := by
  constructor
  · norm_num [foliageProgressStep, lerp]
  · norm_num [foliageProgressStep, lerp]

/-- C2 (amended): for a damped-lerp factor `α = rate * dt` with
`0 < α ≤ 1` (equivalently, constant positive `dt` with `rate*dt ≤ 1`), the
iterated update monotonically approaches the target, never overshoots it
(stays between the start value and the target), and comes within `1e-3` of
the target after finitely many ticks; the Foliage progress, the PhotoFrame
resting-position components and the flip progress are all instances of this
one-step update with rates `2.5`, `2.5` and `2.0`. -/
theorem C2_damped_convergence (α T v : ℝ) (hα0 : 0 < α) (hα1 : α ≤ 1) :
    (∀ n, |lerpIter α T v (n + 1) - T| ≤ |lerpIter α T v n - T|) ∧
    (∀ n, min v T ≤ lerpIter α T v n ∧ lerpIter α T v n ≤ max v T) ∧
    (v ≤ T → ∀ n, lerpIter α T v n ≤ lerpIter α T v (n + 1)) ∧
    (T ≤ v → ∀ n, lerpIter α T v (n + 1) ≤ lerpIter α T v n) ∧
    (∃ N, |lerpIter α T v N - T| ≤ 1e-3) ∧
    (∀ formed delta p, foliageProgressStep formed delta p =
      lerpIter (delta * 2.5) (if formed then 1 else 0) p 1) ∧
    (∀ flipped delta p, flipProgressStep flipped delta p =
      lerpIter (delta * 2.0) (if flipped then 1 else 0) p 1) ∧
    (∀ delta cur dest, restingPosStep delta cur dest =
      ⟨lerpIter (delta * 2.5) dest.x cur.x 1, lerpIter (delta * 2.5) dest.y cur.y 1,
        lerpIter (delta * 2.5) dest.z cur.z 1⟩) := by
  have hβ0 : 0 ≤ 1 - α := by linarith
  have hβ1 : 1 - α < 1 := by linarith
  have hpow : ∀ n : ℕ, 0 ≤ (1 - α) ^ n := fun n => pow_nonneg hβ0 n
  have hpowle : ∀ n : ℕ, (1 - α) ^ n ≤ 1 := fun n => pow_le_one₀ hβ0 (by linarith)
  have hstep : ∀ n, lerpIter α T v (n + 1) - lerpIter α T v n =
      -(α * ((1 - α) ^ n * (v - T))) := by
    intro n
    have he := lerpIter_sub_target α T v n
    have he1 := lerpIter_sub_target α T v (n + 1)
    have hs : (1 - α) ^ (n + 1) = (1 - α) ^ n * (1 - α) := pow_succ _ _
    rw [hs] at he1
    have hdiff : lerpIter α T v (n + 1) - lerpIter α T v n =
        (lerpIter α T v (n + 1) - T) - (lerpIter α T v n - T) := by ring
    rw [hdiff, he1, he]
    ring
  refine ⟨?_, ?_, ?_, ?_, ?_, ?_, ?_, ?_⟩
  · intro n
    rw [lerpIter_sub_target, lerpIter_sub_target, pow_succ, abs_mul, abs_mul, abs_mul]
    have hprod : 0 ≤ |(1 - α) ^ n| * |v - T| := mul_nonneg (abs_nonneg _) (abs_nonneg _)
    have habsβ : |1 - α| ≤ 1 := by rw [abs_of_nonneg hβ0]; linarith
    nlinarith [hprod, habsβ, abs_nonneg ((1 - α) ^ n), abs_nonneg (v - T), abs_nonneg (1 - α)]
  · intro n
    have he := lerpIter_sub_target α T v n
    rcases le_total v T with hvT | hTv
    · have h0 : v - T ≤ 0 := by linarith
      have hlo : v - T ≤ (1 - α) ^ n * (v - T) := by
        nlinarith [hpow n, hpowle n]
      have hhi : (1 - α) ^ n * (v - T) ≤ 0 := mul_nonpos_of_nonneg_of_nonpos (hpow n) h0
      constructor
      · rw [min_eq_left hvT]; linarith
      · rw [max_eq_right hvT]; linarith
    · have h0 : 0 ≤ v - T := by linarith
      have hhi : (1 - α) ^ n * (v - T) ≤ v - T := by
        nlinarith [hpow n, hpowle n]
      have hlo : 0 ≤ (1 - α) ^ n * (v - T) := mul_nonneg (hpow n) h0
      constructor
      · rw [min_eq_right hTv]; linarith
      · rw [max_eq_left hTv]; linarith
  · intro hvT n
    have h0 : v - T ≤ 0 := by linarith
    have hX : (1 - α) ^ n * (v - T) ≤ 0 :=
      mul_nonpos_of_nonneg_of_nonpos (hpow n) h0
    have hprod : 0 ≤ α * (-((1 - α) ^ n * (v - T))) :=
      mul_nonneg (le_of_lt hα0) (by linarith)
    linarith [hstep n]
  · intro hTv n
    have h0 : 0 ≤ v - T := by linarith
    have hX : 0 ≤ (1 - α) ^ n * (v - T) := mul_nonneg (hpow n) h0
    have hprod : 0 ≤ α * ((1 - α) ^ n * (v - T)) :=
      mul_nonneg (le_of_lt hα0) hX
    linarith [hstep n]
  · rcases eq_or_ne v T with hvT | hvT
    · exact ⟨0, by norm_num [lerpIter, hvT]⟩
    · have habs : 0 < |v - T| := abs_pos.mpr (sub_ne_zero.mpr hvT)
      obtain ⟨N, hN⟩ := exists_pow_lt_of_lt_one
        (show (0:ℝ) < 1e-3 / |v - T| from div_pos (by norm_num) habs) hβ1
      refine ⟨N, ?_⟩
      rw [lerpIter_sub_target, abs_mul, abs_of_nonneg (hpow N)]
      calc (1 - α) ^ N * |v - T| ≤ (1e-3 / |v - T|) * |v - T| := by
            apply mul_le_mul_of_nonneg_right (le_of_lt hN) (abs_nonneg _)
        _ = 1e-3 := by field_simp
  · intro formed delta p; rfl
  · intro flipped delta p; rfl
  · intro delta cur dest; rfl

/-- C2 witness: the amended theorem instantiated at `α = 1/2`, `T = 1`,
`v = 0`. -/
theorem C2_damped_convergence_witness :
    (∀ n, |lerpIter (1/2) 1 0 (n + 1) - 1| ≤ |lerpIter (1/2) 1 0 n - 1|) ∧
    (∀ n, min (0:ℝ) 1 ≤ lerpIter (1/2) 1 0 n ∧ lerpIter (1/2) 1 0 n ≤ max (0:ℝ) 1) ∧
    ((0:ℝ) ≤ 1 → ∀ n, lerpIter (1/2) 1 0 n ≤ lerpIter (1/2) 1 0 (n + 1)) ∧
    ((1:ℝ) ≤ 0 → ∀ n, lerpIter (1/2) 1 0 (n + 1) ≤ lerpIter (1/2) 1 0 n) ∧
    (∃ N, |lerpIter (1/2) 1 0 N - 1| ≤ 1e-3) ∧
    (∀ formed delta p, foliageProgressStep formed delta p =
      lerpIter (delta * 2.5) (if formed then 1 else 0) p 1) ∧
    (∀ flipped delta p, flipProgressStep flipped delta p =
      lerpIter (delta * 2.0) (if flipped then 1 else 0) p 1) ∧
    (∀ delta cur dest, restingPosStep delta cur dest =
      ⟨lerpIter (delta * 2.5) dest.x cur.x 1, lerpIter (delta * 2.5) dest.y cur.y 1,
        lerpIter (delta * 2.5) dest.z cur.z 1⟩) :=
  C2_damped_convergence (1/2) 1 0 (by norm_num) (by norm_num)

end XmasTree

namespace XmasTree

/-! ## PhotoFrame click / double-click / timer state machine

Embedding of `handleClick`, `handleDoubleClick`, the 250ms deferred-blur
timeout and the unmount cleanup of the PhotoFrame component.  The browser
timer is modelled by an optional count of remaining milliseconds; `elapse`
advances time and fires the pending blur callback exactly when the
remaining time is exhausted.  The `onFocus`/`onBlur` callbacks are modelled
as emitted outputs; a fired or emitted blur also drops the frame's focused
flag (the gallery coordinator clears the focused identifier). -/

/-- Outputs emitted by the PhotoFrame interaction handlers. -/
inductive FrameOut where
  | focusReq : FrameOut
  | blurEmit : FrameOut
deriving DecidableEq

/-- Interaction-relevant state of one PhotoFrame: the `isFocused` prop, the
`isFlipped` state, and the pending single-click timeout (remaining
milliseconds), `clickTimeoutRef`. -/
structure FrameUI where
  focused : Bool
  flipped : Bool
  timer : Option ℕ
deriving DecidableEq

/-- Embedding of `handleClick`: a click is ignored while clearing; a click
on an unfocused frame requests focus immediately; a click on a focused
frame with no pending timer arms a 250ms deferred blur; a click on a
focused frame with a pending timer does nothing. -/
def handleClick (isClearing : Bool) (s : FrameUI) : FrameUI × List FrameOut :=
  if isClearing then (s, [])
  else if !s.focused then (s, [FrameOut.focusReq])
  else if s.timer = none then ({ s with timer := some 250 }, [])
  else (s, [])

/-- Embedding of `handleDoubleClick`: always cancel any pending
single-click timer; toggle `isFlipped` only if the frame is focused. -/
def handleDoubleClick (s : FrameUI) : FrameUI × List FrameOut :=
  let s1 : FrameUI := { s with timer := none }
  if s.focused then ({ s1 with flipped := !s1.flipped }, [])
  else (s1, [])

/-- Passage of `d` milliseconds with no further input: a pending timer
whose remaining time is at most `d` fires `onBlur` (which un-focuses the
frame) and resets the handle to `none`; otherwise the remaining time is
reduced.  Without a pending timer nothing happens. -/
def elapse (d : ℕ) (s : FrameUI) : FrameUI × List FrameOut :=
  match s.timer with
  | none => (s, [])
  | some t =>
    if t ≤ d then ({ s with timer := none, focused := false }, [FrameOut.blurEmit])
    else ({ s with timer := some (t - d) }, [])

/-- Embedding of the unmount cleanup effect: `window.clearTimeout` on any
pending deferred-blur timer. -/
def unmountCleanup (s : FrameUI) : FrameUI := { s with timer := none }

/-- C3: for a focused frame, a single click does not blur immediately but
arms a 250ms deferred blur; with no further input the blur fires exactly
when 250ms have elapsed and not before; a second click within the window
(click handler then double-click handler) leaves the pending click inert,
cancels the deferred blur — after which no elapse ever fires a blur — and
toggles `isFlipped` with no blur emitted; a double-click on an unfocused
frame emits nothing and changes neither the focus nor the flip state. -/
theorem C3_click_double_click (s : FrameUI) (hfoc : s.focused = true)
    (htimer : s.timer = none) :
    ((handleClick false s).2 = [] ∧ (handleClick false s).1.timer = some 250) ∧
    (∀ d, d < 250 → (elapse d (handleClick false s).1).2 = []) ∧
    (∀ d, 250 ≤ d → (elapse d (handleClick false s).1).2 = [FrameOut.blurEmit]) ∧
    (handleClick false (handleClick false s).1 = ((handleClick false s).1, [])) ∧
    ((handleDoubleClick (handleClick false s).1).1.timer = none ∧
      (handleDoubleClick (handleClick false s).1).2 = [] ∧
      (handleDoubleClick (handleClick false s).1).1.flipped = !s.flipped ∧
      ∀ d, (elapse d (handleDoubleClick (handleClick false s).1).1).2 = []) ∧
    (∀ u : FrameUI, u.focused = false → u.timer = none →
      (handleDoubleClick u).2 = [] ∧ (handleDoubleClick u).1.focused = false ∧
      (handleDoubleClick u).1.flipped = u.flipped ∧ (handleDoubleClick u).1 = u) := by
  have h1 : handleClick false s = ({ s with timer := some 250 }, []) := by
    simp [handleClick, hfoc, htimer]
  refine ⟨?_, ?_, ?_, ?_, ?_, ?_⟩
  · rw [h1]
    exact ⟨rfl, rfl⟩
  · intro d hd
    rw [h1]
    simp only [elapse]
    rw [if_neg (by omega)]
  · intro d hd
    rw [h1]
    simp only [elapse]
    rw [if_pos (by omega)]
  · rw [h1]
    simp [handleClick, hfoc]
  · rw [h1]
    refine ⟨?_, ?_, ?_, ?_⟩
    · simp [handleDoubleClick, hfoc]
    · simp [handleDoubleClick, hfoc]
    · simp [handleDoubleClick, hfoc]
    · intro d
      simp [handleDoubleClick, hfoc, elapse]
  · intro u hufoc hutimer
    refine ⟨?_, ?_, ?_, ?_⟩ <;> simp [handleDoubleClick, hufoc]
    cases u
    simp_all

/-- C3 witness: the theorem instantiated at the concrete focused state
with no pending timer and the front face showing. -/
theorem C3_click_double_click_witness :
    ((handleClick false ⟨true, false, none⟩).2 = [] ∧
      (handleClick false ⟨true, false, none⟩).1.timer = some 250) ∧
    (∀ d, d < 250 → (elapse d (handleClick false ⟨true, false, none⟩).1).2 = []) ∧
    (∀ d, 250 ≤ d →
      (elapse d (handleClick false ⟨true, false, none⟩).1).2 = [FrameOut.blurEmit]) ∧
    (handleClick false (handleClick false ⟨true, false, none⟩).1 =
      ((handleClick false ⟨true, false, none⟩).1, [])) ∧
    ((handleDoubleClick (handleClick false ⟨true, false, none⟩).1).1.timer = none ∧
      (handleDoubleClick (handleClick false ⟨true, false, none⟩).1).2 = [] ∧
      (handleDoubleClick (handleClick false ⟨true, false, none⟩).1).1.flipped = !false ∧
      ∀ d, (elapse d (handleDoubleClick (handleClick false ⟨true, false, none⟩).1).1).2 = []) ∧
    (∀ u : FrameUI, u.focused = false → u.timer = none →
      (handleDoubleClick u).2 = [] ∧ (handleDoubleClick u).1.focused = false ∧
      (handleDoubleClick u).1.flipped = u.flipped ∧ (handleDoubleClick u).1 = u) :=
  C3_click_double_click ⟨true, false, none⟩ (by decide) (by decide)

/-- C9: the deferred single-click blur timer is cancelled by the unmount
cleanup and by the double-click handler, and a cancelled timer never fires
its blur callback afterwards: after either cancellation, elapsing any
amount of time emits no output and leaves the state unchanged. -/
theorem C9_timer_cancellation (s : FrameUI) (d : ℕ) :
    (unmountCleanup s).timer = none ∧
    (handleDoubleClick s).1.timer = none ∧
    (elapse d (unmountCleanup s)).2 = [] ∧
    (elapse d (unmountCleanup s)).1 = unmountCleanup s ∧
    (elapse d (handleDoubleClick s).1).2 = [] ∧
    (elapse d (handleDoubleClick s).1).1 = (handleDoubleClick s).1 := by
  refine ⟨rfl, ?_, ?_, ?_, ?_, ?_⟩ <;>
    cases hfoc : s.focused <;> simp [handleDoubleClick, unmountCleanup, elapse, hfoc]

end XmasTree

namespace XmasTree

/-! ## PhotoFrame clearing step and Star centerpiece -/

/-- Embedding of step 0 of the PhotoFrame `useFrame` body: while clearing,
`visibilityScale = lerp(visibilityScale, 0, delta * 3)` and `onBlur()` is
invoked iff this frame is the focused one; otherwise
`visibilityScale = 1`.  Returns the new scale and whether a blur was
emitted. -/
def clearingStep (isClearing isFocused : Bool) (delta v : ℝ) : ℝ × Bool :=
  if isClearing then (lerp v 0 (delta * 3), isFocused)
  else (1, false)

/-- C5: while the clearing flag is set, each per-frame update damps
`visibilityScale` toward 0 with rate factor 3 and emits a blur exactly when
the frame is the focused one; while the flag is clear the scale is held at
1 with no blur; and a click on an unfocused frame during clearing issues no
focus request and changes nothing. -/
theorem C5_clearing_behaviour (isFocused : Bool) (delta v : ℝ) (u : FrameUI) :
    (clearingStep true isFocused delta v).1 = lerp v 0 (delta * 3) ∧
    ((clearingStep true isFocused delta v).2 = isFocused) ∧
    (clearingStep false isFocused delta v).1 = 1 ∧
    (clearingStep false isFocused delta v).2 = false ∧
    (handleClick true u).2 = [] ∧
    (handleClick true u).1 = u := by
  refine ⟨rfl, rfl, rfl, rfl, ?_, ?_⟩ <;> simp [handleClick]

/-- Embedding of the Star `useFrame` progress update (`src` Star
component): with `speed = 1/1.5`, `targetVal = formed ? 1 : 0` and
`diff = targetVal - progress`, if `|diff| > 0.0001` then
`progress = clamp(progress + sign(diff) * delta * speed, 0, 1)`, else
`progress = targetVal`. -/
def starTick (formed : Bool) (delta p : ℝ) : ℝ :=
  let speed : ℝ := 1 / 1.5
  let targetVal : ℝ := if formed then 1 else 0
  let diff := targetVal - p
  if 0.0001 < |diff| then clampVal (p + msign diff * delta * speed) 0 1
  else targetVal

/-- Rendered per-frame outputs of the Star component, as functions of the
updated raw progress: `p = smoothstep(progress, 0, 1)`,
`material.opacity = p`, `material.emissiveIntensity = 2 * p`,
`visible = p > 0.01`, uniform scale `1.5 - 0.5 * p`, and the point light
`intensity = 2 * progress` (raw progress). -/
structure StarRender where
  opacity : ℝ
  emissiveIntensity : ℝ
  visible : Prop
  scale : ℝ
  lightIntensity : ℝ

/-- Embedding of the Star per-frame property assignments. -/
def starRender (progress : ℝ) : StarRender :=
  let p := smoothstep progress 0 1
  { opacity := p
    emissiveIntensity := 2 * p
    visible := 0.01 < p
    scale := 1.5 - 0.5 * p
    lightIntensity := 2 * progress }

/-- C7: the star progress moves linearly at rate `1/1.5` per second toward
1 when FORMED and toward 0 when CHAOS, clamped to `[0,1]` (exact linear
step whenever neither the snap threshold nor the clamp bites, monotone
toward the target, and staying in `[0,1]`); the rendered value is
`smoothstep` of the progress, the material opacity equals that smoothed
value, the emissive intensity equals twice it, the star is visible iff it
exceeds `0.01`, the uniform scale is `1.5 - 0.5` times it, and the
point-light intensity equals twice the raw progress. -/
theorem C7_star_progress_and_render (formed : Bool) (delta p : ℝ)
    (hp0 : 0 ≤ p) (hp1 : p ≤ 1) (hd : 0 ≤ delta) :
    (0 ≤ starTick formed delta p ∧ starTick formed delta p ≤ 1) ∧
    (formed = true → p ≤ starTick formed delta p) ∧
    (formed = false → starTick formed delta p ≤ p) ∧
    (formed = true → 0.0001 < 1 - p → p + delta * (1 / 1.5) ≤ 1 →
      starTick formed delta p = p + delta * (1 / 1.5)) ∧
    (formed = false → 0.0001 < p → 0 ≤ p - delta * (1 / 1.5) →
      starTick formed delta p = p - delta * (1 / 1.5)) ∧
    ((starRender (starTick formed delta p)).opacity =
      smoothstep (starTick formed delta p) 0 1 ∧
     (starRender (starTick formed delta p)).emissiveIntensity =
      2 * smoothstep (starTick formed delta p) 0 1 ∧
     ((starRender (starTick formed delta p)).visible ↔
      0.01 < smoothstep (starTick formed delta p) 0 1) ∧
     (starRender (starTick formed delta p)).scale =
      1.5 - 0.5 * smoothstep (starTick formed delta p) 0 1 ∧
     (starRender (starTick formed delta p)).lightIntensity =
      2 * starTick formed delta p) := by
  have hclamp : ∀ x : ℝ, 0 ≤ clampVal x 0 1 ∧ clampVal x 0 1 ≤ 1 := by
    intro x
    unfold clampVal
    exact ⟨le_max_left _ _, max_le zero_le_one (min_le_left _ _)⟩
  refine ⟨?_, ?_, ?_, ?_, ?_, rfl, rfl, Iff.rfl, rfl, rfl⟩
  · unfold starTick
    cases formed <;> simp only [if_true, if_false, Bool.false_eq_true] <;>
      split <;>
      first
        | exact hclamp _
        | (constructor <;> norm_num)
  · intro hform
    subst hform
    unfold starTick
    simp only [if_true]
    split
    · rename_i habs
      rw [abs_of_nonneg (by linarith : (0:ℝ) ≤ 1 - p)] at habs
      have hsign : msign (1 - p) = 1 := by
        unfold msign
        rw [if_pos (by linarith)]
      rw [hsign]
      unfold clampVal
      have h1 : p ≤ p + 1 * delta * (1 / 1.5) := by nlinarith
      have h2 : p ≤ min 1 (p + 1 * delta * (1 / 1.5)) := le_min hp1 h1
      exact le_trans h2 (le_max_right _ _)
    · exact hp1
  · intro hform
    subst hform
    unfold starTick
    simp only [Bool.false_eq_true, if_false]
    split
    · rename_i habs
      rw [abs_of_nonpos (by linarith : (0:ℝ) - p ≤ 0)] at habs
      have hsign : msign (0 - p) = -1 := by
        unfold msign
        rw [if_neg (by linarith), if_pos (by linarith)]
      rw [hsign]
      unfold clampVal
      have h1 : p + -1 * delta * (1 / 1.5) ≤ p := by nlinarith
      have h2 : min 1 (p + -1 * delta * (1 / 1.5)) ≤ p := le_trans (min_le_right _ _) h1
      exact max_le hp0 h2
    · exact hp0
  · intro hform hthr hcl
    subst hform
    unfold starTick
    simp only [if_true]
    rw [if_pos (by rw [abs_of_nonneg (by linarith)]; linarith)]
    have hsign : msign (1 - p) = 1 := by
      unfold msign
      rw [if_pos (by linarith)]
    rw [hsign]
    unfold clampVal
    rw [min_eq_right (by linarith), max_eq_right (by nlinarith)]
    ring
  · intro hform hthr hcl
    subst hform
    unfold starTick
    simp only [Bool.false_eq_true, if_false]
    rw [if_pos (by rw [abs_of_nonpos (by linarith)]; linarith)]
    have hsign : msign (0 - p) = -1 := by
      unfold msign
      rw [if_neg (by linarith), if_pos (by linarith)]
    rw [hsign]
    unfold clampVal
    rw [min_eq_right (by linarith), max_eq_right (by linarith)]
    ring

/-- C7 witness: the theorem instantiated at `formed = true`,
`delta = 1/10`, `p = 1/2`. -/
theorem C7_star_witness :
    ((0 ≤ starTick true (1/10) (1/2) ∧ starTick true (1/10) (1/2) ≤ 1) ∧
    (true = true → (1/2 : ℝ) ≤ starTick true (1/10) (1/2)) ∧
    (true = false → starTick true (1/10) (1/2) ≤ (1/2 : ℝ)) ∧
    (true = true → (0.0001 : ℝ) < 1 - 1/2 → (1/2 : ℝ) + (1/10) * (1 / 1.5) ≤ 1 →
      starTick true (1/10) (1/2) = 1/2 + (1/10) * (1 / 1.5)) ∧
    (true = false → (0.0001 : ℝ) < 1/2 → (0 : ℝ) ≤ 1/2 - (1/10) * (1 / 1.5) →
      starTick true (1/10) (1/2) = 1/2 - (1/10) * (1 / 1.5)) ∧
    ((starRender (starTick true (1/10) (1/2))).opacity =
      smoothstep (starTick true (1/10) (1/2)) 0 1 ∧
     (starRender (starTick true (1/10) (1/2))).emissiveIntensity =
      2 * smoothstep (starTick true (1/10) (1/2)) 0 1 ∧
     ((starRender (starTick true (1/10) (1/2))).visible ↔
      0.01 < smoothstep (starTick true (1/10) (1/2)) 0 1) ∧
     (starRender (starTick true (1/10) (1/2))).scale =
      1.5 - 0.5 * smoothstep (starTick true (1/10) (1/2)) 0 1 ∧
     (starRender (starTick true (1/10) (1/2))).lightIntensity =
      2 * starTick true (1/10) (1/2))) :=
  C7_star_progress_and_render true (1/10) (1/2) (by norm_num) (by norm_num) (by norm_num)

end XmasTree

namespace XmasTree

/-! ## Combined per-tick system state (C6) -/

/-- The progress scalars tracked across components: the Foliage field
progress, the Star progress, the PhotoFrame focus progress, the PhotoFrame
flip progress, and the PhotoFrame visibility scale. -/
structure AnimState where
  foliageP : ℝ
  starP : ℝ
  focusP : ℝ
  flipP : ℝ
  visScale : ℝ

/-- External inputs of one frame tick: the Global Assembly Signal
(`formed`), the frame's focus and flip flags, the clearing flag and the
frame delta in seconds. -/
structure TickInput where
  formed : Bool
  focused : Bool
  flipped : Bool
  clearing : Bool
  dt : ℝ

/-- One simultaneous frame tick over all tracked scalars, each updated by
its component's own `useFrame` rule: the Foliage damped lerp (rate 2.5),
the Star linear clamped step (rate 1/1.5), the PhotoFrame focus progress
(`min 1 (p + dt*1.5)` / `max 0 (p - dt*1.5)`), the flip damped lerp (rate
2.0) and the clearing step for the visibility scale (rate 3, else held at
1). -/
def tickAll (inp : TickInput) (s : AnimState) : AnimState :=
  { foliageP := foliageProgressStep inp.formed inp.dt s.foliageP
    starP := starTick inp.formed inp.dt s.starP
    focusP := if inp.focused then min 1 (s.focusP + inp.dt * 1.5)
              else max 0 (s.focusP - inp.dt * 1.5)
    flipP := flipProgressStep inp.flipped inp.dt s.flipP
    visScale := (clearingStep inp.clearing inp.focused inp.dt s.visScale).1 }

/-- Iterated ticks over a list of frame inputs. -/
def runTicks (l : List TickInput) (s : AnimState) : AnimState :=
  l.foldl (fun s inp => tickAll inp s) s

/-- All tracked progress scalars lie in `[0, 1]`. -/
def InBounds (s : AnimState) : Prop :=
  0 ≤ s.foliageP ∧ s.foliageP ≤ 1 ∧ 0 ≤ s.starP ∧ s.starP ≤ 1 ∧
  0 ≤ s.focusP ∧ s.focusP ≤ 1 ∧ 0 ≤ s.flipP ∧ s.flipP ≤ 1 ∧
  0 ≤ s.visScale ∧ s.visScale ≤ 1

/-- Helper: a damped lerp with factor in `[0,1]` between values in `[0,1]`
stays in `[0,1]`. -/
theorem lerp_mem_unit {x T α : ℝ} (hx0 : 0 ≤ x) (hx1 : x ≤ 1) (hT0 : 0 ≤ T)
    (hT1 : T ≤ 1) (hα0 : 0 ≤ α) (hα1 : α ≤ 1) : 0 ≤ lerp x T α ∧ lerp x T α ≤ 1 := by
  unfold lerp
  constructor
  · nlinarith
  · nlinarith

/-- Helper: one tick preserves the `[0,1]` bounds when `0 ≤ dt ≤ 1/3`. -/
theorem tickAll_preserves_bounds (inp : TickInput) (s : AnimState)
    (hdt0 : 0 ≤ inp.dt) (hdt1 : inp.dt ≤ 1/3) (hs : InBounds s) :
    InBounds (tickAll inp s) := by
  obtain ⟨h1, h2, h3, h4, h5, h6, h7, h8, h9, h10⟩ := hs
  have hfoliage : 0 ≤ foliageProgressStep inp.formed inp.dt s.foliageP ∧
      foliageProgressStep inp.formed inp.dt s.foliageP ≤ 1 := by
    unfold foliageProgressStep
    cases inp.formed <;>
      exact lerp_mem_unit h1 h2 (by norm_num) (by norm_num) (by linarith) (by linarith)
  have hstar : 0 ≤ starTick inp.formed inp.dt s.starP ∧
      starTick inp.formed inp.dt s.starP ≤ 1 := by
    unfold starTick
    cases inp.formed <;> simp only [if_true, if_false, Bool.false_eq_true] <;> split <;>
      first
        | exact ⟨le_max_left _ _, max_le zero_le_one (min_le_left _ _)⟩
        | (constructor <;> norm_num)
  have hfocus : 0 ≤ (if inp.focused then min 1 (s.focusP + inp.dt * 1.5)
      else max 0 (s.focusP - inp.dt * 1.5)) ∧
      (if inp.focused then min 1 (s.focusP + inp.dt * 1.5)
      else max 0 (s.focusP - inp.dt * 1.5)) ≤ 1 := by
    cases hfoc : inp.focused <;> simp only [if_true, if_false, Bool.false_eq_true]
    · exact ⟨le_max_left _ _, max_le zero_le_one (by linarith)⟩
    · exact ⟨le_min zero_le_one (by nlinarith), min_le_left _ _⟩
  have hflip : 0 ≤ flipProgressStep inp.flipped inp.dt s.flipP ∧
      flipProgressStep inp.flipped inp.dt s.flipP ≤ 1 := by
    unfold flipProgressStep
    cases inp.flipped <;>
      exact lerp_mem_unit h7 h8 (by norm_num) (by norm_num) (by linarith) (by linarith)
  have hvis : 0 ≤ (clearingStep inp.clearing inp.focused inp.dt s.visScale).1 ∧
      (clearingStep inp.clearing inp.focused inp.dt s.visScale).1 ≤ 1 := by
    unfold clearingStep
    cases inp.clearing <;> simp only [if_true, if_false, Bool.false_eq_true]
    · constructor <;> norm_num
    · exact lerp_mem_unit h9 h10 (by norm_num) (by norm_num) (by linarith) (by linarith)
  exact ⟨hfoliage.1, hfoliage.2, hstar.1, hstar.2, hfocus.1, hfocus.2,
    hflip.1, hflip.2, hvis.1, hvis.2⟩

/-- C6 counterexample: the claim promises the `[0,1]` bounds for EVERY
sequence of ticks, but the damping lerps do not clamp their factor.  A
single clearing tick with `dt = 1` sends `visibilityScale` from `1` to
`lerp(1, 0, 3) = -2`, outside `[0,1]`. -/
theorem C6_counterexample :
    ¬ InBounds (tickAll ⟨false, false, false, true, 1⟩ ⟨0, 0, 0, 0, 1⟩) := by
  intro h
  obtain ⟨_, _, _, _, _, _, _, _, h9, _⟩ := h
  have : (tickAll ⟨false, false, false, true, 1⟩ ⟨0, 0, 0, 0, 1⟩).visScale = -2 := by
    show (clearingStep true false 1 1).1 = -2
    norm_num [clearingStep, lerp]
  rw [this] at h9
  linarith

/-- C6 (amended): for every sequence of Global Assembly Signal toggles and
per-frame ticks whose deltas satisfy `0 ≤ dt ≤ 1/3` (so that no damping
factor exceeds 1; this includes a CHAOS→FORMED→CHAOS flip within two
ticks), every tracked progress scalar — foliage field progress, star
progress, focus progress, flip progress, visibility scale — remains within
`[0,1]` after every tick. -/
theorem C6_bounds_preserved (l : List TickInput) (s : AnimState)
    (hdt : ∀ inp ∈ l, 0 ≤ inp.dt ∧ inp.dt ≤ 1/3) (hs : InBounds s) :
    InBounds (runTicks l s) := by
  induction l generalizing s with
  | nil => exact hs
  | cons inp rest ih =>
    have hinp := hdt inp (by simp)
    have hrest : ∀ q ∈ rest, 0 ≤ q.dt ∧ q.dt ≤ 1/3 := fun q hq => hdt q (by simp [hq])
    exact ih (tickAll inp s) hrest (tickAll_preserves_bounds inp s hinp.1 hinp.2 hs)

/-- C6 witness: a CHAOS→FORMED→CHAOS flip within two ticks at `dt = 1/4`
starting from the all-resting state keeps every scalar in `[0,1]`. -/
theorem C6_bounds_witness :
    InBounds (runTicks [⟨true, false, false, false, 1/4⟩,
      ⟨false, false, false, false, 1/4⟩] ⟨0, 0, 0, 0, 1⟩) :=
  C6_bounds_preserved _ _
    (by
      intro inp hinp
      simp only [List.mem_cons, List.not_mem_nil, or_false] at hinp
      rcases hinp with h | h <;> subst h <;> norm_num)
    (by norm_num [InBounds])

end XmasTree

namespace XmasTree

/-! ## Ornament instance batches (C8) -/

/-- The three ornament batch kinds. -/
inductive OrnamentKind where
  | ball : OrnamentKind
  | box : OrnamentKind
  | light : OrnamentKind
deriving DecidableEq

/-- Per-instance speed generation: `1 + Math.random() * 2` with the draw
`u ∈ [0,1)` passed explicitly. -/
def ornamentSpeed (u : ℝ) : ℝ := 1 + u * 2

/-- Per-instance per-frame output transform: position, Euler rotation and
uniform scale. -/
structure InstanceXf where
  pos : Vec3
  rot : Vec3
  scale : ℝ

/-- Embedding of the Ornaments `useFrame` body for one instance `i`:
`current.lerp(target, speed * delta)` with `target` the tree target when
FORMED and the chaos point otherwise; boxes keep their fixed initial
rotation; balls and lights get Euler rotation `(0, t * 0.1 * speed, 0)`;
lights get uniform scale `1 + sin(t * 5 + i) * 0.2`, all other kinds scale
`1`. -/
def ornamentTick (kind : OrnamentKind) (formed : Bool) (t delta : ℝ) (i : ℕ)
    (speed : ℝ) (cur targetData chaosData initRot : Vec3) : InstanceXf :=
  let target := if formed then targetData else chaosData
  let newPos := vlerp cur target (speed * delta)
  let rot := match kind with
    | OrnamentKind.box => initRot
    | _ => ⟨0, t * 0.1 * speed, 0⟩
  let scale := match kind with
    | OrnamentKind.light => 1 + Real.sin (t * 5 + (i : ℝ)) * 0.2
    | _ => 1
  ⟨newPos, rot, scale⟩

/-- C8: with the speed draw `u ∈ [0,1)` the per-instance speed
`1 + u * 2` lies in `[1,3)`; every per-frame update lerps the instance
position toward its state-dependent target by factor `speed * dt`; box
instances keep their fixed initial orientation; ball and light instances
rotate about the vertical axis by `t * 0.1 * speed`; light instances have
uniform scale `1 + 0.2 * sin(5 * t + i)` while ball and box instances keep
scale `1`. -/
theorem C8_ornament_tick (kind : OrnamentKind) (formed : Bool) (t delta : ℝ)
    (i : ℕ) (u : ℝ) (cur targetData chaosData initRot : Vec3)
    (hu0 : 0 ≤ u) (hu1 : u < 1) :
    (1 ≤ ornamentSpeed u ∧ ornamentSpeed u < 3) ∧
    (ornamentTick kind formed t delta i (ornamentSpeed u) cur targetData chaosData
        initRot).pos =
      vlerp cur (if formed then targetData else chaosData) (ornamentSpeed u * delta) ∧
    (ornamentTick OrnamentKind.box formed t delta i (ornamentSpeed u) cur targetData
        chaosData initRot).rot = initRot ∧
    (ornamentTick OrnamentKind.ball formed t delta i (ornamentSpeed u) cur targetData
        chaosData initRot).rot = ⟨0, t * 0.1 * ornamentSpeed u, 0⟩ ∧
    (ornamentTick OrnamentKind.light formed t delta i (ornamentSpeed u) cur targetData
        chaosData initRot).rot = ⟨0, t * 0.1 * ornamentSpeed u, 0⟩ ∧
    (ornamentTick OrnamentKind.light formed t delta i (ornamentSpeed u) cur targetData
        chaosData initRot).scale = 1 + 0.2 * Real.sin (5 * t + (i : ℝ)) ∧
    (ornamentTick OrnamentKind.ball formed t delta i (ornamentSpeed u) cur targetData
        chaosData initRot).scale = 1 ∧
    (ornamentTick OrnamentKind.box formed t delta i (ornamentSpeed u) cur targetData
        chaosData initRot).scale = 1 := by
  refine ⟨⟨?_, ?_⟩, ?_, rfl, rfl, rfl, ?_, rfl, rfl⟩
  · unfold ornamentSpeed; nlinarith
  · unfold ornamentSpeed; nlinarith
  · cases kind <;> rfl
  · show 1 + Real.sin (t * 5 + (i : ℝ)) * 0.2 = 1 + 0.2 * Real.sin (5 * t + (i : ℝ))
    rw [mul_comm t 5]
    ring

/-- C8 witness: the theorem instantiated at the ball kind, formed signal,
`t = 1`, `delta = 1/10`, instance 0, draw `u = 1/2` and concrete
vectors. -/
theorem C8_ornament_witness :
    ((1 ≤ ornamentSpeed (1/2) ∧ ornamentSpeed (1/2) < 3) ∧
    (ornamentTick OrnamentKind.ball true 1 (1/10) 0 (ornamentSpeed (1/2)) ⟨0,0,0⟩
        ⟨1,1,1⟩ ⟨2,2,2⟩ ⟨0,0,0⟩).pos =
      vlerp ⟨0,0,0⟩ (if true then (⟨1,1,1⟩ : Vec3) else ⟨2,2,2⟩)
        (ornamentSpeed (1/2) * (1/10)) ∧
    (ornamentTick OrnamentKind.box true 1 (1/10) 0 (ornamentSpeed (1/2)) ⟨0,0,0⟩
        ⟨1,1,1⟩ ⟨2,2,2⟩ ⟨0,0,0⟩).rot = ⟨0,0,0⟩ ∧
    (ornamentTick OrnamentKind.ball true 1 (1/10) 0 (ornamentSpeed (1/2)) ⟨0,0,0⟩
        ⟨1,1,1⟩ ⟨2,2,2⟩ ⟨0,0,0⟩).rot = ⟨0, 1 * 0.1 * ornamentSpeed (1/2), 0⟩ ∧
    (ornamentTick OrnamentKind.light true 1 (1/10) 0 (ornamentSpeed (1/2)) ⟨0,0,0⟩
        ⟨1,1,1⟩ ⟨2,2,2⟩ ⟨0,0,0⟩).rot = ⟨0, 1 * 0.1 * ornamentSpeed (1/2), 0⟩ ∧
    (ornamentTick OrnamentKind.light true 1 (1/10) 0 (ornamentSpeed (1/2)) ⟨0,0,0⟩
        ⟨1,1,1⟩ ⟨2,2,2⟩ ⟨0,0,0⟩).scale = 1 + 0.2 * Real.sin (5 * 1 + ((0 : ℕ) : ℝ)) ∧
    (ornamentTick OrnamentKind.ball true 1 (1/10) 0 (ornamentSpeed (1/2)) ⟨0,0,0⟩
        ⟨1,1,1⟩ ⟨2,2,2⟩ ⟨0,0,0⟩).scale = 1 ∧
    (ornamentTick OrnamentKind.box true 1 (1/10) 0 (ornamentSpeed (1/2)) ⟨0,0,0⟩
        ⟨1,1,1⟩ ⟨2,2,2⟩ ⟨0,0,0⟩).scale = 1) :=
  C8_ornament_tick OrnamentKind.ball true 1 (1/10) 0 (1/2) ⟨0,0,0⟩ ⟨1,1,1⟩ ⟨2,2,2⟩
    ⟨0,0,0⟩ (by norm_num) (by norm_num)

end XmasTree

namespace XmasTree

/-! ## Chaotic swarm (C10) -/

/-- Per-particle base radius generation: `0.8 + Math.random() * 1.7` with
the draw `u ∈ [0,1)` passed explicitly. -/
def swarmRadius (u : ℝ) : ℝ := 0.8 + u * 1.7

/-- Embedding of one coordinate of the ChaoticSwarm `useFrame` position
update: with `time = t * speed`, the coordinate is
`radius * sin(time * freq + offset)`. -/
def swarmCoord (radius speed freq offset t : ℝ) : ℝ :=
  radius * Real.sin (t * speed * freq + offset)

/-- C10: every chaotic-swarm coordinate equals
`radius * sin(t * speed * freq + offset)`, so its absolute value never
exceeds the particle's radius; the generated radius lies in `[0.8, 2.5)`;
hence every coordinate stays strictly inside the half-width-2.5 cube for
all times, speeds, frequencies and phase offsets. -/
theorem C10_swarm_bounded (u speed freq offset t : ℝ)
    (hu0 : 0 ≤ u) (hu1 : u < 1) :
    swarmCoord (swarmRadius u) speed freq offset t =
      swarmRadius u * Real.sin (t * speed * freq + offset) ∧
    |swarmCoord (swarmRadius u) speed freq offset t| ≤ swarmRadius u ∧
    (0.8 ≤ swarmRadius u ∧ swarmRadius u < 2.5) ∧
    |swarmCoord (swarmRadius u) speed freq offset t| < 2.5 := by
  have hrad0 : (0.8 : ℝ) ≤ swarmRadius u := by unfold swarmRadius; nlinarith
  have hrad1 : swarmRadius u < 2.5 := by unfold swarmRadius; nlinarith
  have hsin : |Real.sin (t * speed * freq + offset)| ≤ 1 :=
    abs_le.mpr ⟨Real.neg_one_le_sin _, Real.sin_le_one _⟩
  have hbound : |swarmCoord (swarmRadius u) speed freq offset t| ≤ swarmRadius u := by
    unfold swarmCoord
    rw [abs_mul, abs_of_nonneg (by linarith : (0:ℝ) ≤ swarmRadius u)]
    nlinarith [abs_nonneg (Real.sin (t * speed * freq + offset))]
  exact ⟨rfl, hbound, ⟨hrad0, hrad1⟩, lt_of_le_of_lt hbound hrad1⟩

/-- C10 witness: the theorem instantiated at `u = 0`,
`speed = freq = 1`, `offset = 0`, `t = 0`. -/
theorem C10_swarm_witness :
    (swarmCoord (swarmRadius 0) 1 1 0 0 =
      swarmRadius 0 * Real.sin (0 * 1 * 1 + 0) ∧
    |swarmCoord (swarmRadius 0) 1 1 0 0| ≤ swarmRadius 0 ∧
    ((0.8 : ℝ) ≤ swarmRadius 0 ∧ swarmRadius 0 < 2.5) ∧
    |swarmCoord (swarmRadius 0) 1 1 0 0| < 2.5) :=
  C10_swarm_bounded 0 1 1 0 0 (by norm_num) (by norm_num)

end XmasTree
